import Mathlib

/-!
Shallow embedding of `tools/ci_connector_ops/ci_connector_ops/utils.py`
(Airbyte CI connector ops utilities).

The filesystem and the VCS are external collaborators of the Python code:
they enter the model as explicit inputs.  A connector's on-disk state is a
`ConnectorFS` record; the git diff output and the glob result are plain
inputs to the change-detection functions.  YAML documents are modelled by
the inductive `Yaml`; Python's `None` is `Yaml.null`, so a function that can
return `None` or a value returns `Yaml`.  Python exceptions are modelled by
`Except PyError`.
-/

set_option autoImplicit false

namespace Airbyte

/-- A YAML value as produced by `yaml.safe_load`, restricted to the shapes
the metadata documents use.  Python `None` is `Yaml.null`. -/
inductive Yaml where
  | null
  | bool (b : Bool)
  | str (s : String)
  | list (xs : List Yaml)
  | map (entries : List (String × Yaml))

/-- The Python exceptions the embedded code can raise. -/
inductive PyError where
  | keyError (k : String)
  | indexError
  | typeError
  | attributeError
  | fileNotFoundError
  | connectorInvalidNameError
  | connectorVersionNotFound
deriving DecidableEq, Repr

/-- Python `str.split(sep)` for a one-character separator, on character
lists.  `split` always returns at least one (possibly empty) group. -/
def splitChar (sep : Char) : List Char → List (List Char)
  | [] => [[]]
  | c :: cs =>
    match splitChar sep cs with
    | [] => [[c]]
    | g :: gs => if c = sep then [] :: g :: gs else (c :: g) :: gs

/-- Python `s.split(sep)` for a one-character separator. -/
def pySplit (s : String) (sep : Char) : List String :=
  (splitChar sep s.toList).map (fun cs => String.mk cs)

/-- Python `pat in s` (substring containment). -/
def strContains (s pat : String) : Bool :=
  s.toList.tails.any (fun t => pat.toList.isPrefixOf t)

/-- Python `s.startswith(pre)`. -/
def pyStartsWith (s pre : String) : Bool :=
  pre.toList.isPrefixOf s.toList

/-- Python `s.endswith(suf)`. -/
def pyEndsWith (s suf : String) : Bool :=
  suf.toList.isSuffixOf s.toList

/-- Python `s.strip()`: drop leading and trailing whitespace. -/
def pyStrip (s : String) : String :=
  String.mk (((s.toList.dropWhile Char.isWhitespace).reverse.dropWhile
    Char.isWhitespace).reverse)

/-- Python `x is None` for a YAML value. -/
def Yaml.isNull : Yaml → Bool
  | .null => true
  | _ => false

/-- Python `d[k]`: value of the first entry with key `k`, `KeyError` when
the key is absent, `TypeError` when the receiver is not a mapping. -/
def Yaml.pyIndex : Yaml → String → Except PyError Yaml
  | .map es, k =>
    match es.lookup k with
    | some v => Except.ok v
    | none => Except.error (PyError.keyError k)
  | _, _ => Except.error PyError.typeError

/-- `CONNECTOR_PATH_PREFIX` in the source. -/
def CONNECTOR_PATH_ROOT : String := "airbyte-integrations/connectors"

/-- `SOURCE_CONNECTOR_PATH_PREFIX` in the source. -/
def SOURCE_CONNECTOR_PATH_ROOT : String := CONNECTOR_PATH_ROOT ++ "/source-"

/-- `ACCEPTANCE_TEST_CONFIG_FILE_NAME` in the source. -/
def ACCEPTANCE_TEST_CONFIG_FILE_NAME : String := "acceptance-test-config.yml"

/-- `METADATA_FILE_NAME` in the source. -/
def METADATA_FILE_NAME : String := "metadata.yaml"

/-- The on-disk state of one connector's code directory, the part the
embedded properties read:
* `metadataFile`: parsed content of `metadata.yaml` when the file exists;
* `dockerfile`: the lines of `Dockerfile` when the file exists;
* `setupPyExists`: whether `setup.py` exists at the directory root;
* `manifestExists`: whether `<technical_name with underscores>/manifest.yaml`
  exists under the directory. -/
structure ConnectorFS where
  metadataFile : Option Yaml
  dockerfile : Option (List String)
  setupPyExists : Bool
  manifestExists : Bool

/-- `ConnectorLanguage` in the source: a three-member enumeration. -/
inductive ConnectorLanguage where
  | python
  | java
  | low_code
deriving DecidableEq, Repr

/-- The `Connector` dataclass: identity is the technical name. -/
structure Connector where
  technical_name : String
deriving DecidableEq, Repr

/-- `Connector._get_type_and_name_from_technical_name`:
raise `ConnectorInvalidNameError` when the name has no hyphen, else
`_type = technical_name.split("-")[0]` and
`name = technical_name[len(_type) + 1 :]`. -/
def Connector.get_type_and_name_from_technical_name (c : Connector) :
    Except PyError (String × String) :=
  if c.technical_name.toList.contains '-' then
    let t := (pySplit c.technical_name '-').headD ""
    Except.ok (t, String.mk (c.technical_name.toList.drop (t.toList.length + 1)))
  else
    Except.error PyError.connectorInvalidNameError

/-- `Connector.name` property. -/
def Connector.name (c : Connector) : Except PyError String :=
  (fun p => p.2) <$> c.get_type_and_name_from_technical_name

/-- `Connector.connector_type` property. -/
def Connector.connector_type (c : Connector) : Except PyError String :=
  (fun p => p.1) <$> c.get_type_and_name_from_technical_name

/-- `Connector.metadata` property: `None` when `metadata.yaml` is absent,
else the `data` entry of the parsed document (`KeyError` when missing). -/
def metadata (fs : ConnectorFS) : Except PyError Yaml :=
  match fs.metadataFile with
  | none => Except.ok Yaml.null
  | some doc => doc.pyIndex "data"

/-- The `"FROM airbyte/integration-base-java" in dockerfile.read()` test of
the `language` property; `False` stands for the caught `FileNotFoundError`. -/
def dockerfileMentionsJavaBase (fs : ConnectorFS) : Bool :=
  match fs.dockerfile with
  | some lines =>
    strContains (String.intercalate "\n" lines) "FROM airbyte/integration-base-java"
  | none => false

/-- `Connector.language` property: manifest ⇒ low-code, else `setup.py` ⇒
python, else a Dockerfile mentioning the Java base image ⇒ java, else
`None` (the `raise ConnectorLanguageError` line is commented out in the
source). -/
def language (fs : ConnectorFS) : Option ConnectorLanguage :=
  if fs.manifestExists then some ConnectorLanguage.low_code
  else if fs.setupPyExists then some ConnectorLanguage.python
  else if dockerfileMentionsJavaBase fs then some ConnectorLanguage.java
  else none

/-- `Connector.version_in_dockerfile_label` property: open the Dockerfile
(`FileNotFoundError` when absent), return `line.split("=")[1].strip()` for
the first line containing `io.airbyte.version`, else raise
`ConnectorVersionNotFound`. -/
def version_in_dockerfile_label (fs : ConnectorFS) : Except PyError String :=
  match fs.dockerfile with
  | none => Except.error PyError.fileNotFoundError
  | some lines =>
    match lines.find? (fun line => strContains line "io.airbyte.version") with
    | some line =>
      match (pySplit line '=').get? 1 with
      | some v => Except.ok (pyStrip v)
      | none => Except.error PyError.indexError
    | none => Except.error PyError.connectorVersionNotFound

/-- `Connector.version` property: `version_in_dockerfile_label` when
metadata is `None`, else `metadata["dockerImageTag"]`.  An exception from
`metadata` propagates. -/
def version (fs : ConnectorFS) : Except PyError Yaml :=
  match metadata fs with
  | Except.error e => Except.error e
  | Except.ok m =>
    if m.isNull then Except.map Yaml.str (version_in_dockerfile_label fs)
    else m.pyIndex "dockerImageTag"

/-- `get_connector_name_from_path`: `path.split("/")[2]`.  Index 2 always
exists for the paths both callers feed it, which start with
`SOURCE_CONNECTOR_PATH_PREFIX` and hence contain two slashes. -/
def get_connector_name_from_path (path : String) : String :=
  (pySplit path '/').getD 2 ""

/-- `get_changed_acceptance_test_config`: split the git diff output on
newlines, keep the paths starting with the source-connector path prefix and
ending with the acceptance-test-config filename, wrap each path's third
component as a `Connector`.  The diff output string is the external VCS
collaborator's answer, taken here as input. -/
def get_changed_acceptance_test_config (diffOutput : String) : Finset Connector :=
  (((pySplit diffOutput '\n').filter (fun p =>
      pyStartsWith p SOURCE_CONNECTOR_PATH_ROOT &&
      pyEndsWith p ACCEPTANCE_TEST_CONFIG_FILE_NAME)).map
    (fun p => Connector.mk (get_connector_name_from_path p))).toFinset

/-- `get_changed_connectors`: same projection, filtered only by the
source-connector path prefix. -/
def get_changed_connectors (diffOutput : String) : Finset Connector :=
  (((pySplit diffOutput '\n').filter (fun p =>
      pyStartsWith p SOURCE_CONNECTOR_PATH_ROOT)).map
    (fun p => Connector.mk (get_connector_name_from_path p))).toFinset

/-- `Path(p).parent.name`: the next-to-last slash-separated component. -/
def pathParentName (p : String) : String :=
  ((pySplit p '/').dropLast).getLastD ""

/-- `get_all_released_connectors`: one `Connector` per parent directory of
each `metadata.yaml` found by the recursive glob (the glob result is the
external filesystem collaborator's answer, taken here as input), excluding
paths containing `-scaffold-`. -/
def get_all_released_connectors (metadataFiles : List String) : Finset Connector :=
  ((metadataFiles.filter (fun p => !strContains p "-scaffold-")).map
    (fun p => Connector.mk (pathParentName p))).toFinset

theorem splitChar_cons_eq (sep c : Char) (cs : List Char) :
    splitChar sep (c :: cs) =
      match splitChar sep cs with
      | [] => [[c]]
      | g :: gs => if c = sep then [] :: g :: gs else (c :: g) :: gs := rfl

theorem splitChar_ne_nil (sep : Char) (l : List Char) : splitChar sep l ≠ [] := by
  cases l with
  | nil => simp [splitChar]
  | cons c cs =>
    rw [splitChar_cons_eq]
    cases h : splitChar sep cs with
    | nil => simp
    | cons g gs => by_cases hc : c = sep <;> simp [hc]

theorem splitChar_append (sep : Char) (a b : List Char) (ha : sep ∉ a) :
    splitChar sep (a ++ sep :: b) = a :: splitChar sep b := by
  induction a with
  | nil =>
    simp only [List.nil_append]
    rw [splitChar_cons_eq]
    cases h : splitChar sep b with
    | nil => exact absurd h (splitChar_ne_nil sep b)
    | cons g gs => simp
  | cons c cs ih =>
    have hc : c ≠ sep := fun e => ha (e ▸ List.mem_cons_self c cs)
    have ha' : sep ∉ cs := fun m => ha (List.mem_cons_of_mem c m)
    simp only [List.cons_append]
    rw [splitChar_cons_eq, ih ha']
    simp [hc]

theorem splitChar_headD (sep : Char) (l : List Char) :
    (splitChar sep l).headD [] = l.takeWhile (fun c => !(c == sep)) := by
  induction l with
  | nil => simp [splitChar]
  | cons c cs ih =>
    rw [splitChar_cons_eq]
    cases h : splitChar sep cs with
    | nil => exact absurd h (splitChar_ne_nil sep cs)
    | cons g gs =>
      rw [h] at ih
      by_cases hc : c = sep
      · subst hc
        simp [List.takeWhile_cons]
      · simp only [List.headD] at ih
        simp [hc, List.takeWhile_cons, ih]

theorem str_mk_toList (s : String) : String.mk s.toList = s := rfl

/-- C4: for every technical name of the form `<t>-<n>` with `t` free of
hyphens, `connector_type` is `t` and `name` is the whole remainder `n`;
for a technical name without a hyphen both accessors fail with
`ConnectorInvalidNameError` and never return a partial result. -/
theorem parse_identity_spec (c : Connector) (t n : String) :
    (c.technical_name.toList = t.toList ++ '-' :: n.toList → '-' ∉ t.toList →
      c.connector_type = Except.ok t ∧ c.name = Except.ok n) ∧
    ('-' ∉ c.technical_name.toList →
      c.name = Except.error PyError.connectorInvalidNameError ∧
      c.connector_type = Except.error PyError.connectorInvalidNameError) := by
  constructor
  · intro htech ht
    have hmem : '-' ∈ c.technical_name.toList := by
      rw [htech]; exact List.mem_append_right _ (List.mem_cons_self _ _)
    have hcontains : c.technical_name.toList.contains '-' = true := by
      simpa using hmem
    have hsplit : pySplit c.technical_name '-' = t :: (splitChar '-' n.toList).map String.mk := by
      rw [pySplit, htech, splitChar_append '-' t.toList n.toList ht]
      simp [str_mk_toList]
    have hparse : c.get_type_and_name_from_technical_name = Except.ok (t, n) := by
      rw [Connector.get_type_and_name_from_technical_name, if_pos hcontains, hsplit]
      simp only [List.headD]
      have hdrop : c.technical_name.toList.drop (t.toList.length + 1) = n.toList := by
        rw [htech, ← List.singleton_append, ← List.append_assoc]
        have hlen : (t.toList ++ ['-']).length = t.toList.length + 1 := by simp
        rw [← hlen, List.drop_left]
      rw [hdrop, str_mk_toList]
    constructor
    · rw [Connector.connector_type, hparse]; rfl
    · rw [Connector.name, hparse]; rfl
  · intro ht
    have hcontains : c.technical_name.toList.contains '-' = false := by
      simpa using ht
    have hparse : c.get_type_and_name_from_technical_name =
        Except.error PyError.connectorInvalidNameError := by
      rw [Connector.get_type_and_name_from_technical_name]
      simp only [hcontains, Bool.false_eq_true, if_false]
    constructor
    · rw [Connector.name, hparse]; rfl
    · rw [Connector.connector_type, hparse]; rfl

theorem parse_identity_spec_witness :
    ((Connector.mk "destination-bigquery-denormalized").connector_type =
        Except.ok "destination" ∧
      (Connector.mk "destination-bigquery-denormalized").name =
        Except.ok "bigquery-denormalized") ∧
    ((Connector.mk "sourcefoo").name = Except.error PyError.connectorInvalidNameError ∧
      (Connector.mk "sourcefoo").connector_type =
        Except.error PyError.connectorInvalidNameError) :=
  ⟨(parse_identity_spec (Connector.mk "destination-bigquery-denormalized")
      "destination" "bigquery-denormalized").1 (by decide) (by decide),
   (parse_identity_spec (Connector.mk "sourcefoo") "" "").2 (by decide)⟩

/-- C1: when the metadata document is present and its `data` mapping carries
`dockerImageTag`, `version` returns exactly that string; the Dockerfile is
never consulted (any state `fs'` with the same metadata file but arbitrary
Dockerfile yields the same result). -/
theorem version_from_metadata_tag (fs fs' : ConnectorFS)
    (es ds : List (String × Yaml)) (v : String)
    (hm : fs.metadataFile = some (Yaml.map es))
    (hm' : fs'.metadataFile = fs.metadataFile)
    (hdata : es.lookup "data" = some (Yaml.map ds))
    (htag : ds.lookup "dockerImageTag" = some (Yaml.str v)) :
    version fs = Except.ok (Yaml.str v) ∧ version fs' = Except.ok (Yaml.str v) := by
  have hmeta : metadata fs = Except.ok (Yaml.map ds) := by
    rw [metadata, hm]; simp [Yaml.pyIndex, hdata]
  have hmeta' : metadata fs' = Except.ok (Yaml.map ds) := by
    rw [metadata, hm', hm]; simp [Yaml.pyIndex, hdata]
  constructor
  · rw [version, hmeta]; simp [Yaml.isNull, Yaml.pyIndex, htag]
  · rw [version, hmeta']; simp [Yaml.isNull, Yaml.pyIndex, htag]

theorem version_from_metadata_tag_witness :
    version ⟨some (Yaml.map [("data", Yaml.map [("dockerImageTag", Yaml.str "9.9.9")])]),
        some ["LABEL io.airbyte.version=0.0.1"], false, false⟩ =
      Except.ok (Yaml.str "9.9.9") ∧
    version ⟨some (Yaml.map [("data", Yaml.map [("dockerImageTag", Yaml.str "9.9.9")])]),
        none, false, false⟩ =
      Except.ok (Yaml.str "9.9.9") :=
  version_from_metadata_tag
    ⟨some (Yaml.map [("data", Yaml.map [("dockerImageTag", Yaml.str "9.9.9")])]),
      some ["LABEL io.airbyte.version=0.0.1"], false, false⟩
    ⟨some (Yaml.map [("data", Yaml.map [("dockerImageTag", Yaml.str "9.9.9")])]),
      none, false, false⟩
    [("data", Yaml.map [("dockerImageTag", Yaml.str "9.9.9")])]
    [("dockerImageTag", Yaml.str "9.9.9")] "9.9.9" rfl rfl rfl rfl

/-- C2 counterexample: with metadata present but lacking `dockerImageTag`,
`version` fails with `KeyError`, not with `ConnectorVersionNotFound`. -/
theorem version_failure_kind_cex :
    version ⟨some (Yaml.map [("data", Yaml.map [("dockerRepository", Yaml.str "x")])]),
        none, false, false⟩ =
      Except.error (PyError.keyError "dockerImageTag") ∧
    version ⟨some (Yaml.map [("data", Yaml.map [("dockerRepository", Yaml.str "x")])]),
        none, false, false⟩ ≠
      Except.error PyError.connectorVersionNotFound ∧
    version ⟨none, none, false, false⟩ = Except.error PyError.fileNotFoundError ∧
    version ⟨none, none, false, false⟩ ≠ Except.error PyError.connectorVersionNotFound := by
  have h1 : version ⟨some (Yaml.map [("data", Yaml.map [("dockerRepository", Yaml.str "x")])]),
      none, false, false⟩ = Except.error (PyError.keyError "dockerImageTag") := rfl
  have h2 : version ⟨none, none, false, false⟩ = Except.error PyError.fileNotFoundError := rfl
  refine ⟨h1, ?_, h2, ?_⟩
  · rw [h1]
    intro h
    exact PyError.noConfusion (Except.error.inj h)
  · rw [h2]
    intro h
    exact PyError.noConfusion (Except.error.inj h)

/-- C2 amended: the failure modes of `version` are: metadata present but
lacking `dockerImageTag` fails with `KeyError`; metadata absent with no
Dockerfile fails with `FileNotFoundError`; metadata absent with a Dockerfile
containing no `io.airbyte.version` line fails with
`ConnectorVersionNotFound`.  No case returns a default. -/
theorem version_failure_modes (fs : ConnectorFS) (es ds : List (String × Yaml))
    (lines : List String) :
    (fs.metadataFile = some (Yaml.map es) →
      es.lookup "data" = some (Yaml.map ds) →
      ds.lookup "dockerImageTag" = none →
      version fs = Except.error (PyError.keyError "dockerImageTag")) ∧
    (fs.metadataFile = none → fs.dockerfile = none →
      version fs = Except.error PyError.fileNotFoundError) ∧
    (fs.metadataFile = none → fs.dockerfile = some lines →
      (∀ l ∈ lines, strContains l "io.airbyte.version" = false) →
      version fs = Except.error PyError.connectorVersionNotFound) := by
  refine ⟨?_, ?_, ?_⟩
  · intro hm hdata htag
    have hmeta : metadata fs = Except.ok (Yaml.map ds) := by
      rw [metadata, hm]; simp [Yaml.pyIndex, hdata]
    rw [version, hmeta]
    simp [Yaml.isNull, Yaml.pyIndex, htag]
  · intro hm hd
    have hmeta : metadata fs = Except.ok Yaml.null := by rw [metadata, hm]
    rw [version, hmeta]
    simp [Yaml.isNull, version_in_dockerfile_label, hd, Except.map]
  · intro hm hd hnone
    have hmeta : metadata fs = Except.ok Yaml.null := by rw [metadata, hm]
    have hfind : lines.find? (fun line => strContains line "io.airbyte.version") = none := by
      rw [List.find?_eq_none]
      intro l hl
      simp [hnone l hl]
    rw [version, hmeta]
    simp [Yaml.isNull, version_in_dockerfile_label, hd, hfind, Except.map]

theorem version_failure_modes_witness :
    version ⟨some (Yaml.map [("data", Yaml.map [("dockerRepository", Yaml.str "r")])]),
        none, false, false⟩ =
      Except.error (PyError.keyError "dockerImageTag") ∧
    version ⟨none, none, false, false⟩ = Except.error PyError.fileNotFoundError ∧
    version ⟨none, some ["FROM python:3"], false, false⟩ =
      Except.error PyError.connectorVersionNotFound :=
  ⟨(version_failure_modes
      ⟨some (Yaml.map [("data", Yaml.map [("dockerRepository", Yaml.str "r")])]),
        none, false, false⟩
      [("data", Yaml.map [("dockerRepository", Yaml.str "r")])]
      [("dockerRepository", Yaml.str "r")] []).1 rfl rfl rfl,
   (version_failure_modes ⟨none, none, false, false⟩ [] [] []).2.1 rfl rfl,
   (version_failure_modes ⟨none, some ["FROM python:3"], false, false⟩ [] []
      ["FROM python:3"]).2.2 rfl rfl (by decide)⟩

/-- C6: `metadata` returns `None` (not an error) when the metadata file is
absent; the document's `data` entry when present; and a `KeyError` when the
file is present but the `data` key is missing. -/
theorem metadata_spec (fs : ConnectorFS) (es : List (String × Yaml)) (v : Yaml) :
    (fs.metadataFile = none → metadata fs = Except.ok Yaml.null) ∧
    (fs.metadataFile = some (Yaml.map es) → es.lookup "data" = some v →
      metadata fs = Except.ok v) ∧
    (fs.metadataFile = some (Yaml.map es) → es.lookup "data" = none →
      metadata fs = Except.error (PyError.keyError "data")) := by
  refine ⟨?_, ?_, ?_⟩
  · intro h; rw [metadata, h]
  · intro h hdata; rw [metadata, h]; simp [Yaml.pyIndex, hdata]
  · intro h hdata; rw [metadata, h]; simp [Yaml.pyIndex, hdata]

theorem metadata_spec_witness :
    metadata ⟨none, none, false, false⟩ = Except.ok Yaml.null ∧
    metadata ⟨some (Yaml.map [("data", Yaml.map [("releaseStage", Yaml.str "alpha")])]),
        none, false, false⟩ =
      Except.ok (Yaml.map [("releaseStage", Yaml.str "alpha")]) ∧
    metadata ⟨some (Yaml.map [("other", Yaml.str "x")]), none, false, false⟩ =
      Except.error (PyError.keyError "data") :=
  ⟨(metadata_spec ⟨none, none, false, false⟩ [] Yaml.null).1 rfl,
   (metadata_spec ⟨some (Yaml.map [("data", Yaml.map [("releaseStage", Yaml.str "alpha")])]),
        none, false, false⟩
      [("data", Yaml.map [("releaseStage", Yaml.str "alpha")])]
      (Yaml.map [("releaseStage", Yaml.str "alpha")])).2.1 rfl rfl,
   (metadata_spec ⟨some (Yaml.map [("other", Yaml.str "x")]), none, false, false⟩
      [("other", Yaml.str "x")] Yaml.null).2.2 rfl rfl⟩

/-- C3 counterexample: a Dockerfile version label whose value itself
contains `=` yields only the text between the first and second `=`, not
everything after the first `=` as the claim states. -/
theorem version_label_value_cex :
    version ⟨none, some ["LABEL io.airbyte.version=1.2.3=rc1"], false, false⟩ =
      Except.ok (Yaml.str "1.2.3") ∧
    version ⟨none, some ["LABEL io.airbyte.version=1.2.3=rc1"], false, false⟩ ≠
      Except.ok (Yaml.str "1.2.3=rc1") := by
  have h1 : version ⟨none, some ["LABEL io.airbyte.version=1.2.3=rc1"], false, false⟩ =
      Except.ok (Yaml.str "1.2.3") := rfl
  refine ⟨h1, ?_⟩
  rw [h1]
  intro h
  exact absurd (Yaml.str.inj (Except.ok.inj h)) (by decide)

/-- C3 amended: with metadata absent and a Dockerfile whose first line
containing `io.airbyte.version` is `a ++ "=" ++ b` with `a` free of `=`,
`version` returns the text of `b` up to (not including) the next `=`,
trimmed of surrounding whitespace; when the value contains no further `=`
this is everything after the `=` sign. -/
theorem version_in_dockerfile_label_some (fs : ConnectorFS) (lines : List String)
    (hd : fs.dockerfile = some lines) :
    version_in_dockerfile_label fs =
      match lines.find? (fun line => strContains line "io.airbyte.version") with
      | some line =>
        match (pySplit line '=').get? 1 with
        | some v => Except.ok (pyStrip v)
        | none => Except.error PyError.indexError
      | none => Except.error PyError.connectorVersionNotFound := by
  rw [version_in_dockerfile_label, hd]

theorem version_dockerfile_label_spec (fs : ConnectorFS) (lines : List String)
    (a b : List Char)
    (hm : fs.metadataFile = none)
    (hd : fs.dockerfile = some lines)
    (hfind : lines.find? (fun line => strContains line "io.airbyte.version") =
      some (String.mk (a ++ '=' :: b)))
    (ha : '=' ∉ a) :
    version fs =
      Except.ok (Yaml.str (pyStrip (String.mk (b.takeWhile (fun c => !(c == '=')))))) := by
  have hmeta : metadata fs = Except.ok Yaml.null := by rw [metadata, hm]
  have hsp : pySplit (String.mk (a ++ '=' :: b)) '=' =
      String.mk a :: (splitChar '=' b).map String.mk := by
    rw [pySplit]
    have htl : (String.mk (a ++ '=' :: b)).toList = a ++ '=' :: b := rfl
    rw [htl, splitChar_append '=' a b ha]
    simp
  have hlabel : version_in_dockerfile_label fs =
      Except.ok (pyStrip (String.mk (b.takeWhile (fun c => !(c == '='))))) := by
    rw [version_in_dockerfile_label_some fs lines hd, hfind]
    show (match (pySplit (String.mk (a ++ '=' :: b)) '=').get? 1 with
      | some v => Except.ok (pyStrip v)
      | none => Except.error PyError.indexError) = _
    rw [hsp]
    cases hb : splitChar '=' b with
    | nil => exact absurd hb (splitChar_ne_nil '=' b)
    | cons g gs =>
      have hg : g = b.takeWhile (fun c => !(c == '=')) := by
        have hh := splitChar_headD '=' b
        rw [hb] at hh
        simpa using hh
      simp [hg]
  rw [version, hmeta]
  simp only [Yaml.isNull, if_pos]
  rw [hlabel]
  rfl

theorem version_dockerfile_label_spec_witness :
    version ⟨none, some ["LABEL io.airbyte.version=0.5.0"], false, false⟩ =
      Except.ok (Yaml.str "0.5.0") :=
  version_dockerfile_label_spec
    ⟨none, some ["LABEL io.airbyte.version=0.5.0"], false, false⟩
    ["LABEL io.airbyte.version=0.5.0"]
    ("LABEL io.airbyte.version".toList) ("0.5.0".toList)
    rfl rfl (by decide) (by decide)

/-- C5 counterexample: for a connector directory with no manifest, no
`setup.py` and no Dockerfile, `language` returns `none` — not an `unknown`
member of the `ConnectorLanguage` enumeration, which has no such member. -/
theorem language_unknown_cex :
    language ⟨none, none, false, false⟩ = none ∧
    language ⟨none, none, false, false⟩ ≠ some ConnectorLanguage.python ∧
    language ⟨none, none, false, false⟩ ≠ some ConnectorLanguage.java ∧
    language ⟨none, none, false, false⟩ ≠ some ConnectorLanguage.low_code := by decide

/-- C5 amended: `language` resolves by ordered precedence with first match
winning — manifest ⇒ low-code, else `setup.py` ⇒ python, else a Dockerfile
mentioning the Java base image ⇒ java — and otherwise returns `None`
(absence), the source enumeration having only the three members python,
java and low-code; no exception is raised in the fallback case. -/
theorem language_precedence (fs : ConnectorFS) :
    (fs.manifestExists = true → language fs = some ConnectorLanguage.low_code) ∧
    (fs.manifestExists = false → fs.setupPyExists = true →
      language fs = some ConnectorLanguage.python) ∧
    (fs.manifestExists = false → fs.setupPyExists = false →
      dockerfileMentionsJavaBase fs = true → language fs = some ConnectorLanguage.java) ∧
    (fs.manifestExists = false → fs.setupPyExists = false →
      dockerfileMentionsJavaBase fs = false → language fs = none) := by
  refine ⟨?_, ?_, ?_, ?_⟩ <;> intros <;> simp [language, *]

theorem language_precedence_witness :
    language ⟨none, none, false, true⟩ = some ConnectorLanguage.low_code ∧
    language ⟨none, none, true, false⟩ = some ConnectorLanguage.python ∧
    language ⟨none, some ["FROM airbyte/integration-base-java"], false, false⟩ =
      some ConnectorLanguage.java ∧
    language ⟨none, some ["FROM python:3"], false, false⟩ = none :=
  ⟨(language_precedence ⟨none, none, false, true⟩).1 rfl,
   (language_precedence ⟨none, none, true, false⟩).2.1 rfl rfl,
   (language_precedence ⟨none, some ["FROM airbyte/integration-base-java"], false,
      false⟩).2.2.1 rfl rfl (by decide),
   (language_precedence ⟨none, some ["FROM python:3"], false, false⟩).2.2.2 rfl rfl
     (by decide)⟩

/-- C8: a changed path contributes to `get_changed_acceptance_test_config`
exactly when it starts with the source-connector path prefix and ends with
the acceptance-test-config filename, contributing the connector named by its
third slash-separated component; every other path is silently excluded.  In
particular the spec's Scenario C holds. -/
theorem changed_acceptance_test_config_spec (d : String) (c : Connector) :
    (c ∈ get_changed_acceptance_test_config d ↔
      ∃ p, p ∈ pySplit d '\n' ∧
        pyStartsWith p SOURCE_CONNECTOR_PATH_ROOT = true ∧
        pyEndsWith p ACCEPTANCE_TEST_CONFIG_FILE_NAME = true ∧
        Connector.mk (get_connector_name_from_path p) = c) ∧
    get_changed_acceptance_test_config
        ("airbyte-integrations/connectors/source-foo/acceptance-test-config.yml\nairbyte-integrations/connectors/destination-bar/acceptance-test-config.yml") =
      {Connector.mk "source-foo"} := by
  constructor
  · rw [get_changed_acceptance_test_config]
    simp only [List.mem_toFinset, List.mem_map, List.mem_filter, Bool.and_eq_true]
    constructor
    · rintro ⟨p, ⟨hp, hs, he⟩, hc⟩
      exact ⟨p, hp, hs, he, hc⟩
    · rintro ⟨p, hp, hs, he, hc⟩
      exact ⟨p, ⟨hp, hs, he⟩, hc⟩
  · decide

theorem changed_acceptance_test_config_spec_witness :
    Connector.mk "source-foo" ∈
      get_changed_acceptance_test_config
        "airbyte-integrations/connectors/source-foo/acceptance-test-config.yml" :=
  ((changed_acceptance_test_config_spec
      "airbyte-integrations/connectors/source-foo/acceptance-test-config.yml"
      (Connector.mk "source-foo")).1).mpr
    ⟨"airbyte-integrations/connectors/source-foo/acceptance-test-config.yml",
      by decide, by decide, by decide, rfl⟩

/-- C9: a metadata file found by the recursive scan contributes to
`get_all_released_connectors` exactly when its path does not contain the
`-scaffold-` marker, contributing the connector named by its parent
directory; the spec's Scenario D holds. -/
theorem all_released_connectors_spec (files : List String) (c : Connector) :
    (c ∈ get_all_released_connectors files ↔
      ∃ p, p ∈ files ∧ strContains p "-scaffold-" = false ∧
        Connector.mk (pathParentName p) = c) ∧
    get_all_released_connectors
        ["airbyte-integrations/connectors/source-a/metadata.yaml",
          "airbyte-integrations/connectors/source-b-scaffold-test/metadata.yaml",
          "airbyte-integrations/connectors/destination-c/metadata.yaml"] =
      {Connector.mk "source-a", Connector.mk "destination-c"} := by
  constructor
  · rw [get_all_released_connectors]
    simp only [List.mem_toFinset, List.mem_map, List.mem_filter, Bool.not_eq_true']
    constructor
    · rintro ⟨p, ⟨hp, hsc⟩, hc⟩
      exact ⟨p, hp, hsc, hc⟩
    · rintro ⟨p, hp, hsc, hc⟩
      exact ⟨p, ⟨hp, hsc⟩, hc⟩
  · decide

theorem all_released_connectors_spec_witness :
    Connector.mk "source-a" ∈
      get_all_released_connectors
        ["airbyte-integrations/connectors/source-a/metadata.yaml"] :=
  ((all_released_connectors_spec
      ["airbyte-integrations/connectors/source-a/metadata.yaml"]
      (Connector.mk "source-a")).1).mpr
    ⟨"airbyte-integrations/connectors/source-a/metadata.yaml",
      by decide, by decide, rfl⟩

/-- C10: for the same diff output, every connector reported by the
acceptance-config change detector is also reported by the changed-connectors
detector: the former only adds a filename-suffix condition to the same
source-prefix filter, and both extract the third path component. -/
theorem acceptance_config_subset_changed (d : String) (c : Connector)
    (h : c ∈ get_changed_acceptance_test_config d) :
    c ∈ get_changed_connectors d := by
  rw [get_changed_acceptance_test_config] at h
  rw [get_changed_connectors]
  simp only [List.mem_toFinset, List.mem_map, List.mem_filter, Bool.and_eq_true] at h ⊢
  obtain ⟨p, ⟨hp, hs, he⟩, hc⟩ := h
  exact ⟨p, ⟨hp, hs⟩, hc⟩

theorem acceptance_config_subset_changed_witness :
    Connector.mk "source-foo" ∈
      get_changed_connectors
        "airbyte-integrations/connectors/source-foo/acceptance-test-config.yml" :=
  acceptance_config_subset_changed
    "airbyte-integrations/connectors/source-foo/acceptance-test-config.yml"
    (Connector.mk "source-foo") (by decide)

end Airbyte
